import Mathlib

/-!
Verification of the APC Mini MK2 controller state model from the overflow
repository (`src/midi/utils.ts`, `src/midi/apcmini_mk2/APCMiniMK2Manager.ts`,
`src/midi/apcmini_mk2/RandomFaderController.ts`).

Numbers are embedded as follows: integer-valued quantities (rows, option
counts, MIDI bytes) as `Nat`/`Int`, real-valued quantities (fader levels,
timestamps, durations) as `Rat`, and the seeded pseudo-random generator,
which uses `Math.sin`, over `Real`.  Calls to `Math.random()` are embedded
by passing the sampled value as an explicit argument.
-/

/-- `NumericRange` from `src/midi/utils.ts` (`{ min, max }`). -/
structure NumericRange where
  lo : ℚ
  hi : ℚ
deriving DecidableEq

/-- `clampUnitRange` from `src/midi/utils.ts`: clamp a value into `[0, 1]`. -/
def clampUnitRange (value : ℚ) : ℚ :=
  if value < 0 then 0
  else if value > 1 then 1
  else value

/-- `clampGridSelection` from `src/midi/utils.ts`: clamp a grid selection to
`[0, max 0 (min 7 (maxOptions - 1))]`. -/
def clampGridSelection (value : ℤ) (maxOptions : ℤ) : ℤ :=
  let maxIndex := max 0 (min 7 (maxOptions - 1))
  if value < 0 then 0
  else if value > maxIndex then maxIndex
  else value

/-- `pseudoRandomFromSeed` from `src/midi/utils.ts`:
`x = sin(seed * 99999 + 1) * 10000; return x - floor(x)`. -/
noncomputable def pseudoRandomFromSeed (seed : ℝ) : ℝ :=
  let x := Real.sin (seed * 99999 + 1) * 10000
  x - (⌊x⌋ : ℝ)

/-- `randomDurationInRange` from `src/midi/utils.ts`; the `Math.random()`
sample is passed explicitly as `u`. -/
def randomDurationInRange (range : NumericRange) (u : ℚ) : ℚ :=
  if range.lo ≥ range.hi then range.lo
  else range.lo + u * (range.hi - range.lo)

/-- `GridParameterState` from `APCMiniMK2Manager.ts`. -/
structure GridParameterState where
  selectedRow : ℕ
  maxOptions : ℕ
  isRandom : Bool
  randomValue : ℤ
deriving DecidableEq

/-- `gridRadioState`: 8 scenes x 8 columns of `GridParameterState`. -/
abbrev Grid := Fin 8 → Fin 8 → GridParameterState

/-- Pointwise update of one grid cell (the source mutates
`gridRadioState[scene][col]` in place). -/
def updateCell (g : Grid) (s c : Fin 8) (p : GridParameterState) : Grid :=
  fun s2 c2 => if s2 = s ∧ c2 = c then p else g s2 c2

/-- The constructor initialisation of `gridRadioState`: every cell starts as
`{ selectedRow: 0, maxOptions: 8, isRandom: false, randomValue: 0 }`. -/
def initGrid : Grid :=
  fun _ _ => { selectedRow := 0, maxOptions := 8, isRandom := false, randomValue := 0 }

/-- `getParamValue`: `param.isRandom ? param.randomValue : param.selectedRow`. -/
def getParamValue (g : Grid) (sceneIndex columnIndex : Fin 8) : ℤ :=
  let param := g sceneIndex columnIndex
  if param.isRandom then param.randomValue else (param.selectedRow : ℤ)

/-- `resetAllMaxOptions`: every cell gets `maxOptions := 1`,
`selectedRow := 0`, `isRandom := false` (randomValue untouched). -/
def resetAllMaxOptions (g : Grid) : Grid :=
  fun s c => { g s c with maxOptions := 1, selectedRow := 0, isRandom := false }

/-- `setMaxOptionsForScene(sceneIndex, optionsArray)`.  The returned `Bool`
records whether the `console.error` diagnostic was emitted (in which case the
grid is returned unchanged).  For each column of the scene the requested max
is clamped by `Math.max(1, Math.min(8, optionsArray[col]))` and `selectedRow`
is pulled down to `max - 1` when it is `>= max`. -/
def setMaxOptionsForScene (g : Grid) (sceneIndex : ℤ) (options : List ℤ) : Grid × Bool :=
  if sceneIndex < 0 ∨ 8 ≤ sceneIndex ∨ options.length ≠ 8 then
    (g, true)
  else
    (fun s c =>
      if (s.val : ℤ) = sceneIndex then
        let p := g s c
        let m := (max 1 (min 8 (options.getD c.val 0))).toNat
        { p with
          maxOptions := m
          selectedRow := if m ≤ p.selectedRow then m - 1 else p.selectedRow }
      else g s c,
    false)

/-- The first loop of `update(tempoIndex)`: for every scene and column, if the
cell is in random mode, recompute
`randomValue = Math.floor(pseudoRandomFromSeed(tempoIndex + colIndex) * maxOptions)`. -/
noncomputable def refreshRandomCells (g : Grid) (tempoIndex : ℤ) : Grid :=
  fun s c =>
    let p := g s c
    if p.isRandom then
      { p with
        randomValue := ⌊pseudoRandomFromSeed ((tempoIndex : ℝ) + (c.val : ℝ)) * (p.maxOptions : ℝ)⌋ }
    else p

/-- `handleGridPad` restricted to its effect on the grid, for a given current
scene.  Grid pads are note-on (`0x90 = 144`) messages with note `0..63`;
`colIndex = gridIndex % 8`, `rowIndex = 7 - gridIndex / 8`.  Row 7 toggles
`isRandom` (clamping `selectedRow` to `min (maxOptions - 1) 6` when turning
random off); rows below `maxOptions` select directly. -/
def handleGridPadG (g : Grid) (scene : Fin 8) (statusByte noteNumber velocity : ℕ) :
    Grid × Bool :=
  if h : statusByte = 144 ∧ noteNumber ≤ 63 then
    if velocity = 0 then (g, true)
    else
      let gridIndex := noteNumber
      let colIndex : Fin 8 := ⟨gridIndex % 8, Nat.mod_lt _ (by norm_num)⟩
      let rowIndex := 7 - gridIndex / 8
      let param := g scene colIndex
      if rowIndex = 7 then
        if param.isRandom then
          (updateCell g scene colIndex
            { param with
              isRandom := false
              selectedRow := if 0 < param.maxOptions then min (param.maxOptions - 1) 6 else 0 },
          true)
        else
          (updateCell g scene colIndex { param with isRandom := true }, true)
      else if rowIndex < param.maxOptions then
        (updateCell g scene colIndex
          { param with selectedRow := rowIndex, isRandom := false }, true)
      else (g, true)
  else (g, false)

/-- `handleGridFallback` restricted to its effect on the grid.  `alt` toggles
random mode (drawing `Math.random()` as `u` for the fresh `randomValue`);
otherwise the selection moves by `±1` under `clampGridSelection`. -/
def handleGridFallbackG (g : Grid) (scene col : Fin 8) (alt shift : Bool) (u : ℚ) : Grid :=
  let param := g scene col
  if alt then
    if param.isRandom then
      updateCell g scene col
        { param with
          isRandom := false
          selectedRow := (clampGridSelection (param.selectedRow : ℤ) (param.maxOptions : ℤ)).toNat }
    else
      updateCell g scene col
        { param with
          isRandom := true
          randomValue := ⌊u * (param.maxOptions : ℚ)⌋ }
  else
    let direction : ℤ := if shift then -1 else 1
    let nextRow := (clampGridSelection ((param.selectedRow : ℤ) + direction) (param.maxOptions : ℤ)).toNat
    updateCell g scene col { param with isRandom := false, selectedRow := nextRow }

/-- `SIDE_ACTIVE_COLORS` (scene → accent color velocity). -/
def sideActiveColors : List ℕ := [5, 60, 56, 53, 37, 32, 21, 13]

/-- `RANDOM_ON_COLOR`. -/
def randomOnColor : ℕ := 45

/-- `DEFAULT_ACTIVE_COLOR` fallback. -/
def defaultActiveColor : ℕ := 41

/-- `LED_COLORS.RED`. -/
def ledRed : ℕ := 3

/-- The velocity computed by `sendGridPadLeds` for the pad at `(col, row)`
(rows counted from the bottom), given the current scene. -/
def gridLedVelocity (g : Grid) (scene col row : Fin 8) : ℕ :=
  let param := g scene col
  let activeRows := param.maxOptions
  if row.val = 7 then
    if param.isRandom then randomOnColor else ledRed
  else if row.val < activeRows then
    let currentValue : ℤ := if param.isRandom then param.randomValue else (param.selectedRow : ℤ)
    if (row.val : ℤ) = currentValue then sideActiveColors.getD scene.val defaultActiveColor
    else ledRed
  else 0

/-- `FaderButtonMode` (`"mute" | "random"`). -/
inductive FaderButtonMode where
  | mute : FaderButtonMode
  | random : FaderButtonMode
deriving DecidableEq

/-- `FaderRandomState` / `RandomFaderState`: per-channel random-fader state. -/
structure RFState where
  isActive : Bool
  currentValue : ℚ
  nextSwitchTime : ℚ
  isHighPhase : Bool
deriving DecidableEq

/-- The freshly initialised random-fader channel state. -/
def rfInit : RFState :=
  { isActive := false, currentValue := 0, nextSwitchTime := 0, isHighPhase := false }

/-- `randomLowDurationRange` of `APCMiniMK2Manager` (`{min: 1200, max: 4000}`). -/
def mgrLowRange : NumericRange := { lo := 1200, hi := 4000 }

/-- `randomHighDurationRange` of `APCMiniMK2Manager` (`{min: 80, max: 220}`). -/
def mgrHighRange : NumericRange := { lo := 80, hi := 220 }

/-- The mutable state of `APCMiniMK2Manager` relevant to MIDI handling. -/
structure MState where
  faderValues : Fin 9 → ℚ
  faderValuesPrev : Fin 9 → ℚ
  faderButtonToggleState : Fin 9 → ℕ
  sideButtonToggleState : Fin 8 → ℕ
  currentSceneIndex : Fin 8
  randomSceneMode : Bool
  faderButtonMode : FaderButtonMode
  faderRandomStates : Fin 9 → RFState
  gridRadioState : Grid

/-- The `APCMiniMK2Manager` constructor state. -/
def initMState : MState :=
  { faderValues := fun _ => 0
    faderValuesPrev := fun _ => 1
    faderButtonToggleState := fun _ => 0
    sideButtonToggleState := fun i => if i.val = 0 then 1 else 0
    currentSceneIndex := 0
    randomSceneMode := false
    faderButtonMode := FaderButtonMode.random
    faderRandomStates := fun _ => rfInit
    gridRadioState := initGrid }

/-- `selectScene(index)`: ignore out-of-range indices; otherwise set the
current scene and rebuild `sideButtonToggleState`. -/
def selectScene (st : MState) (index : ℤ) : MState :=
  if h : index < 0 ∨ 8 ≤ index then st
  else
    { st with
      currentSceneIndex := ⟨index.toNat, by omega⟩
      sideButtonToggleState := fun j => if (j.val : ℤ) = index then 1 else 0 }

/-- `activateRandomFader(index, now)` on the manager, with the
`Math.random()` sample for `getRandomLowDuration()` passed as `u`. -/
def mgrActivateRandomFader (st : MState) (i : Fin 9) (now u : ℚ) : MState :=
  if (st.faderRandomStates i).isActive then st
  else
    { st with
      faderRandomStates := Function.update st.faderRandomStates i
        { isActive := true
          isHighPhase := false
          currentValue := 0
          nextSwitchTime := now + randomDurationInRange mgrLowRange u } }

/-- `deactivateRandomFader(index)` on the manager. -/
def mgrDeactivateRandomFader (st : MState) (i : Fin 9) : MState :=
  if ¬(st.faderRandomStates i).isActive ∧ (st.faderRandomStates i).currentValue = 0 then st
  else
    { st with
      faderRandomStates := Function.update st.faderRandomStates i
        { isActive := false
          isHighPhase := false
          currentValue := 0
          nextSwitchTime := 0 } }

/-- `updateFaderValue(index)` on the manager. -/
def updateFaderValue (st : MState) (i : Fin 9) (now u : ℚ) : MState :=
  if st.faderButtonMode = FaderButtonMode.mute then
    let st1 := mgrDeactivateRandomFader st i
    { st1 with
      faderValues := Function.update st1.faderValues i
        (if st1.faderButtonToggleState i ≠ 0 then 0 else st1.faderValuesPrev i) }
  else
    if st.faderButtonToggleState i ≠ 0 then
      let st1 := mgrActivateRandomFader st i now u
      { st1 with
        faderValues := Function.update st1.faderValues i
          ((st1.faderRandomStates i).currentValue) }
    else
      let st1 := mgrDeactivateRandomFader st i
      { st1 with
        faderValues := Function.update st1.faderValues i (st1.faderValuesPrev i) }

/-- `handleShiftToggle(statusByte, noteNumber, velocity)`: note 122
(`SPECIAL_NOTES.SHIFT`) on a note-on/note-off message is consumed here; a
note-on with positive velocity toggles `randomSceneMode`. -/
def handleShiftToggle (st : MState) (statusByte noteNumber velocity : ℕ) : MState × Bool :=
  if (statusByte = 144 ∨ statusByte = 128) ∧ noteNumber = 122 then
    (if statusByte = 144 ∧ 0 < velocity then
      { st with randomSceneMode := !st.randomSceneMode }
    else st, true)
  else (st, false)

/-- The index computation inside `handleFaderButton`:
`noteNumber >= 100 ? noteNumber - 100 : 8`. -/
def faderButtonIndex (noteNumber : ℕ) : ℕ :=
  if 100 ≤ noteNumber then noteNumber - 100 else 8

/-- `handleFaderButton(statusByte, noteNumber, velocity)`: note-on in
`100..107` or at `FADER_BUTTON_8 = 122`; toggles the channel's toggle state
and recomputes the fader value.  When `faderButtonIndex` falls outside
`0..8` the source would index `faderButtonToggleState` out of bounds; that
path is modelled as leaving the state unchanged (it is unreachable through
`handleMIDIMessage`, which routes note 122 to the shift handler first). -/
def handleFaderButtonM (st : MState) (statusByte noteNumber velocity : ℕ) (now u : ℚ) :
    MState × Bool :=
  if statusByte = 144 ∧ ((100 ≤ noteNumber ∧ noteNumber ≤ 107) ∨ noteNumber = 122) then
    (if 0 < velocity then
      if h : faderButtonIndex noteNumber < 9 then
        let i : Fin 9 := ⟨faderButtonIndex noteNumber, h⟩
        let st1 :=
          { st with
            faderButtonToggleState := Function.update st.faderButtonToggleState i
              (1 - st.faderButtonToggleState i) }
        updateFaderValue st1 i now u
      else st
    else st, true)
  else (st, false)

/-- `handleSideButton(statusByte, noteNumber, velocity)`: note-on in
`112..119` selects the scene `noteNumber - 112`. -/
def handleSideButton (st : MState) (statusByte noteNumber velocity : ℕ) : MState × Bool :=
  if statusByte = 144 ∧ 112 ≤ noteNumber ∧ noteNumber ≤ 119 then
    (if 0 < velocity then selectScene st ((noteNumber : ℤ) - 112) else st, true)
  else (st, false)

/-- `handleGridPad` on the manager state. -/
def handleGridPadM (st : MState) (statusByte noteNumber velocity : ℕ) : MState × Bool :=
  let r := handleGridPadG st.gridRadioState st.currentSceneIndex statusByte noteNumber velocity
  ({ st with gridRadioState := r.1 }, r.2)

/-- `handleFaderControlChange(statusByte, noteNumber, value)`: control change
(`0xB0 = 176`) in `48..56` stores `value / 127` and recomputes the fader. -/
def handleFaderControlChange (st : MState) (statusByte noteNumber value : ℕ) (now u : ℚ) :
    MState :=
  if h : statusByte = 176 ∧ 48 ≤ noteNumber ∧ noteNumber ≤ 56 then
    let i : Fin 9 := ⟨noteNumber - 48, by omega⟩
    let st1 :=
      { st with
        faderValuesPrev := Function.update st.faderValuesPrev i ((value : ℚ) / 127) }
    updateFaderValue st1 i now u
  else st

/-- `handleMIDIMessage`: the dispatch chain
shift → fader button → side button → grid pad → fader control change. -/
def handleMIDIMessage (st : MState) (statusByte noteNumber velocity : ℕ) (now u : ℚ) :
    MState :=
  let r1 := handleShiftToggle st statusByte noteNumber velocity
  if r1.2 then r1.1
  else
    let r2 := handleFaderButtonM r1.1 statusByte noteNumber velocity now u
    if r2.2 then r2.1
    else
      let r3 := handleSideButton r2.1 statusByte noteNumber velocity
      if r3.2 then r3.1
      else
        let r4 := handleGridPadM r3.1 statusByte noteNumber velocity
        if r4.2 then r4.1
        else handleFaderControlChange r4.1 statusByte noteNumber velocity now u

/-- `RandomFaderController` channel array (`states`), for `n` channels. -/
abbrev RFStates (n : ℕ) := Fin n → RFState

/-- The `RandomFaderController` constructor: every channel starts inactive
with value 0 and no scheduled switch. -/
def rfcInit (n : ℕ) : RFStates n := fun _ => rfInit

/-- `RandomFaderController.activate(index, now)`; the `Math.random()` sample
for `getRandomLowDuration()` is `u`. -/
def rfcActivate (low : NumericRange) (s : RFStates n) (i : Fin n) (now u : ℚ) : RFStates n :=
  if (s i).isActive then s
  else
    Function.update s i
      { isActive := true
        isHighPhase := false
        currentValue := 0
        nextSwitchTime := now + randomDurationInRange low u }

/-- `RandomFaderController.deactivate(index)`. -/
def rfcDeactivate (s : RFStates n) (i : Fin n) : RFStates n :=
  if ¬(s i).isActive ∧ (s i).currentValue = 0 then s
  else
    Function.update s i
      { isActive := false
        isHighPhase := false
        currentValue := 0
        nextSwitchTime := 0 }

/-- `RandomFaderController.recomputeValue(index, mode, toggleState, prevValue, now)`:
returns the new states together with the computed fader value.  Out-of-range
indices leave the states unchanged and return `prevValue`. -/
def rfcRecomputeValue (low : NumericRange) (s : RFStates n) (index : ℤ)
    (mode : FaderButtonMode) (toggleState : ℕ) (prevValue : ℚ) (now u : ℚ) :
    RFStates n × ℚ :=
  if h : index < 0 ∨ (n : ℤ) ≤ index then (s, prevValue)
  else
    let i : Fin n := ⟨index.toNat, by omega⟩
    match mode with
    | FaderButtonMode.mute =>
        (rfcDeactivate s i, if toggleState ≠ 0 then 0 else prevValue)
    | FaderButtonMode.random =>
        if toggleState ≠ 0 then
          let s1 := rfcActivate low s i now u
          (s1, (s1 i).currentValue)
        else (rfcDeactivate s i, prevValue)

/-- The body of the `process` loop for one active channel: fill in a zero
`nextSwitchTime`, then flip the high/low phase once the switch time is
reached.  `u1` and `u2` are the `Math.random()` samples for the two possible
duration draws. -/
def rfcProcessChannel (low high : NumericRange) (now : ℚ) (st : RFState) (u1 u2 : ℚ) :
    RFState :=
  let st1 :=
    if st.nextSwitchTime = 0 then
      { st with
        nextSwitchTime := now +
          (if st.isHighPhase then randomDurationInRange high u1
           else randomDurationInRange low u1) }
    else st
  if now ≥ st1.nextSwitchTime then
    if st1.isHighPhase then
      { st1 with
        isHighPhase := false
        currentValue := 0
        nextSwitchTime := now + randomDurationInRange low u2 }
    else
      { st1 with
        isHighPhase := true
        currentValue := 1
        nextSwitchTime := now + randomDurationInRange high u2 }
  else st1

/-- `RandomFaderController.process(now, mode, targetValues)`: only acts when
`mode == "random"`; skips inactive channels; writes the (possibly updated)
`currentValue` of every active channel into the output array. -/
def rfcProcess (low high : NumericRange) (s : RFStates n) (now : ℚ)
    (mode : FaderButtonMode) (outputs : Fin n → ℚ) (u1 u2 : Fin n → ℚ) :
    RFStates n × (Fin n → ℚ) :=
  if mode ≠ FaderButtonMode.random then (s, outputs)
  else
    (fun i =>
      if (s i).isActive then rfcProcessChannel low high now (s i) (u1 i) (u2 i)
      else s i,
     fun i =>
      if (s i).isActive then (rfcProcessChannel low high now (s i) (u1 i) (u2 i)).currentValue
      else outputs i)

/-- Channel-state arrays reachable through the public
`RandomFaderController` interface. -/
inductive RFCReach (low high : NumericRange) : RFStates n → Prop where
  | init : RFCReach low high (rfcInit n)
  | act (s : RFStates n) (i : Fin n) (now u : ℚ) :
      RFCReach low high s → RFCReach low high (rfcActivate low s i now u)
  | deact (s : RFStates n) (i : Fin n) :
      RFCReach low high s → RFCReach low high (rfcDeactivate s i)
  | recompute (s : RFStates n) (index : ℤ) (mode : FaderButtonMode)
      (toggleState : ℕ) (prevValue now u : ℚ) :
      RFCReach low high s →
      RFCReach low high (rfcRecomputeValue low s index mode toggleState prevValue now u).1
  | proc (s : RFStates n) (now : ℚ) (mode : FaderButtonMode)
      (outputs : Fin n → ℚ) (u1 u2 : Fin n → ℚ) :
      RFCReach low high s →
      RFCReach low high (rfcProcess low high s now mode outputs u1 u2).1

/-- Grids reachable through the public grid operations of
`APCMiniMK2Manager`. -/
inductive GridReach : Grid → Prop where
  | init : GridReach initGrid
  | reset (g : Grid) : GridReach g → GridReach (resetAllMaxOptions g)
  | setMax (g : Grid) (sceneIndex : ℤ) (options : List ℤ) :
      GridReach g → GridReach (setMaxOptionsForScene g sceneIndex options).1
  | refresh (g : Grid) (tempoIndex : ℤ) :
      GridReach g → GridReach (refreshRandomCells g tempoIndex)
  | pad (g : Grid) (scene : Fin 8) (statusByte noteNumber velocity : ℕ) :
      GridReach g → GridReach (handleGridPadG g scene statusByte noteNumber velocity).1
  | fallback (g : Grid) (scene col : Fin 8) (alt shift : Bool) (u : ℚ) :
      GridReach g → GridReach (handleGridFallbackG g scene col alt shift u)


/-- A grid whose scene-1 column-0 cell was manually driven to
`selectedRow = 5, isRandom = true` (the pre-state of spec Scenario D). -/
def c1Grid : Grid :=
  updateCell initGrid 1 0
    { selectedRow := 5, maxOptions := 8, isRandom := true, randomValue := 0 }

/-- A grid whose scene-0 column-0 cell is in random mode with
`randomValue = 5` (within its `maxOptions = 8` bound). -/
def c2Grid : Grid :=
  updateCell initGrid 0 0
    { selectedRow := 0, maxOptions := 8, isRandom := true, randomValue := 5 }

/-- The grid after `setMaxOptionsForScene(0, [3,8,8,8,8,8,8,8])` on the
initial grid: scene 0, column 0 has `maxOptions = 3` (spec Scenario B). -/
def c4Grid : Grid :=
  (setMaxOptionsForScene initGrid 0 [3, 8, 8, 8, 8, 8, 8, 8]).1

/-- The per-cell invariant maintained by the grid operations. -/
def cellOK (p : GridParameterState) : Prop :=
  1 ≤ p.maxOptions ∧ p.maxOptions ≤ 8 ∧ p.selectedRow < p.maxOptions

lemma pseudoRandomFromSeed_range (seed : ℝ) :
    0 ≤ pseudoRandomFromSeed seed ∧ pseudoRandomFromSeed seed < 1 := by
  unfold pseudoRandomFromSeed
  constructor
  · have h := Int.floor_le (Real.sin (seed * 99999 + 1) * 10000)
    simp only []
    linarith
  · have h := Int.lt_floor_add_one (Real.sin (seed * 99999 + 1) * 10000)
    simp only []
    linarith

lemma floor_unit_mul_range (p : ℝ) (hp0 : 0 ≤ p) (hp1 : p < 1) (m : ℕ) (hm : 0 < m) :
    0 ≤ ⌊p * (m : ℝ)⌋ ∧ ⌊p * (m : ℝ)⌋ < (m : ℤ) := by
  constructor
  · exact Int.floor_nonneg.2 (mul_nonneg hp0 (by positivity))
  · rw [Int.floor_lt]
    push_cast
    calc p * (m : ℝ) < 1 * (m : ℝ) :=
          mul_lt_mul_of_pos_right hp1 (by exact_mod_cast hm)
    _ = (m : ℝ) := one_mul _

lemma refreshRandomCells_isRandom (g : Grid) (t : ℤ) (s c : Fin 8) :
    (refreshRandomCells g t s c).isRandom = (g s c).isRandom := by
  unfold refreshRandomCells
  cases h : (g s c).isRandom <;> simp [h]

lemma refreshRandomCells_maxOptions (g : Grid) (t : ℤ) (s c : Fin 8) :
    (refreshRandomCells g t s c).maxOptions = (g s c).maxOptions := by
  unfold refreshRandomCells
  cases h : (g s c).isRandom <;> simp [h]

lemma refreshRandomCells_selectedRow (g : Grid) (t : ℤ) (s c : Fin 8) :
    (refreshRandomCells g t s c).selectedRow = (g s c).selectedRow := by
  unfold refreshRandomCells
  cases h : (g s c).isRandom <;> simp [h]

lemma refreshRandomCells_randomValue_of_random (g : Grid) (t : ℤ) (s c : Fin 8)
    (h : (g s c).isRandom = true) :
    (refreshRandomCells g t s c).randomValue
      = ⌊pseudoRandomFromSeed ((t : ℝ) + (c.val : ℝ)) * ((g s c).maxOptions : ℝ)⌋ := by
  unfold refreshRandomCells
  simp [h]

lemma clampGridSelection_range (v m : ℤ) (hm : 1 ≤ m) :
    0 ≤ clampGridSelection v m ∧ clampGridSelection v m < m := by
  have h1 : min 7 (m - 1) ≤ m - 1 := min_le_right _ _
  have h2 : (0 : ℤ) ≤ min 7 (m - 1) := le_min (by norm_num) (by omega)
  have h3 : max 0 (min 7 (m - 1)) = min 7 (m - 1) := max_eq_right h2
  unfold clampGridSelection
  simp only [h3]
  split_ifs <;> omega

lemma updateCell_ok (g : Grid) (s0 c0 : Fin 8) (p : GridParameterState)
    (hg : ∀ s c : Fin 8, cellOK (g s c)) (hp : cellOK p) (s c : Fin 8) :
    cellOK (updateCell g s0 c0 p s c) := by
  unfold updateCell
  split
  · exact hp
  · exact hg s c

lemma gridReach_bounds (g : Grid) (h : GridReach g) : ∀ s c : Fin 8, cellOK (g s c) := by
  induction h with
  | init =>
      intro s c
      exact ⟨by norm_num [initGrid], by norm_num [initGrid], by norm_num [initGrid]⟩
  | reset g0 hg ih =>
      intro s c
      exact ⟨by norm_num [resetAllMaxOptions], by norm_num [resetAllMaxOptions],
        by norm_num [resetAllMaxOptions]⟩
  | setMax g0 sceneIndex options hg ih =>
      intro s c
      by_cases hval : sceneIndex < 0 ∨ 8 ≤ sceneIndex ∨ options.length ≠ 8
      · simpa [setMaxOptionsForScene, hval] using ih s c
      · have h1 : (1 : ℤ) ≤ max 1 (min 8 (options.getD c.val 0)) := le_max_left _ _
        have h2 : max 1 (min 8 (options.getD c.val 0)) ≤ 8 :=
          max_le (by norm_num) (min_le_left _ _)
        simp only [setMaxOptionsForScene, if_neg hval]
        by_cases hs : (s.val : ℤ) = sceneIndex
        · rw [if_pos hs]
          refine ⟨?_, ?_, ?_⟩ <;> dsimp only <;> [skip; skip; split_ifs] <;> omega
        · rw [if_neg hs]
          exact ih s c
  | refresh g0 t hg ih =>
      intro s c
      have e1 := refreshRandomCells_maxOptions g0 t s c
      have e2 := refreshRandomCells_selectedRow g0 t s c
      rcases ih s c with ⟨i1, i2, i3⟩
      exact ⟨by omega, by omega, by omega⟩
  | pad g0 scene a b v hg ih =>
      intro s c
      unfold handleGridPadG
      split
      · split
        · exact ih s c
        · dsimp only
          rcases ih scene ⟨b % 8, Nat.mod_lt _ (by norm_num)⟩ with ⟨i1, i2, i3⟩
          split
          · split
            · refine updateCell_ok _ _ _ _ ih ?_ s c
              refine ⟨i1, i2, ?_⟩
              dsimp only
              have hm := Nat.min_le_left ((g0 scene ⟨b % 8, Nat.mod_lt _ (by norm_num)⟩).maxOptions - 1) 6
              split_ifs <;> omega
            · refine updateCell_ok _ _ _ _ ih ?_ s c
              exact ⟨i1, i2, i3⟩
          · split
            · next hlt =>
              refine updateCell_ok _ _ _ _ ih ?_ s c
              exact ⟨i1, i2, hlt⟩
            · exact ih s c
      · exact ih s c
  | fallback g0 scene col alt shift u hg ih =>
      intro s c
      unfold handleGridFallbackG
      rcases ih scene col with ⟨j1, j2, j3⟩
      have hclamp1 := clampGridSelection_range ((g0 scene col).selectedRow : ℤ)
        ((g0 scene col).maxOptions : ℤ) (by exact_mod_cast j1)
      have hclamp2 := clampGridSelection_range
        (((g0 scene col).selectedRow : ℤ) + (if shift = true then -1 else 1))
        ((g0 scene col).maxOptions : ℤ) (by exact_mod_cast j1)
      split
      · split
        · refine updateCell_ok _ _ _ _ ih ?_ s c
          refine ⟨j1, j2, ?_⟩
          dsimp only
          omega
        · refine updateCell_ok _ _ _ _ ih ?_ s c
          exact ⟨j1, j2, j3⟩
      · dsimp only
        refine updateCell_ok _ _ _ _ ih ?_ s c
        refine ⟨j1, j2, ?_⟩
        dsimp only
        omega

lemma handleGridPadG_row7 (g : Grid) (s c : Fin 8) (vel : ℕ) (hvel : vel ≠ 0) :
    (handleGridPadG g s 144 c.val vel).1 s c =
      (if (g s c).isRandom then
        { g s c with
          isRandom := false
          selectedRow := if 0 < (g s c).maxOptions then min ((g s c).maxOptions - 1) 6 else 0 }
      else { g s c with isRandom := true }) := by
  have hb : c.val ≤ 63 := by have := c.isLt; omega
  have hmod : c.val % 8 = c.val := Nat.mod_eq_of_lt c.isLt
  have hdiv : c.val / 8 = 0 := Nat.div_eq_of_lt c.isLt
  unfold handleGridPadG
  rw [dif_pos ⟨rfl, hb⟩, if_neg hvel]
  dsimp only
  simp only [hmod, hdiv, Fin.eta, Nat.sub_zero, if_true]
  cases hr : (g s c).isRandom <;> simp [hr, updateCell]

/-- C7: `setMaxOptionsForScene` called with an out-of-range scene index or an
options array whose length is not 8 emits the diagnostic (`Bool` result
`true`) and mutates no state: the grid is returned unchanged. -/
theorem c7_setMaxOptionsForScene_rejects_invalid (g : Grid) (sceneIndex : ℤ)
    (options : List ℤ)
    (h : sceneIndex < 0 ∨ 8 ≤ sceneIndex ∨ options.length ≠ 8) :
    setMaxOptionsForScene g sceneIndex options = (g, true) := by
  unfold setMaxOptionsForScene
  exact if_pos h

/-- Witness for C7 at scene index 9 with an empty options array. -/
theorem c7_witness :
    ((9 : ℤ) < 0 ∨ (8 : ℤ) ≤ 9 ∨ ([] : List ℤ).length ≠ 8) ∧
    setMaxOptionsForScene initGrid 9 [] = (initGrid, true) :=
  ⟨Or.inr (Or.inl (by norm_num)),
   c7_setMaxOptionsForScene_rejects_invalid initGrid 9 []
     (Or.inr (Or.inl (by norm_num)))⟩

/-- C1 (amended): for a valid call, each cell of the addressed scene gets
`maxOptions` clamped into `[1, 8]` — never 0, so no cell is ever forced
inert — `selectedRow` pulled down to `maxOptions - 1` when it is out of
range, and `isRandom` and `randomValue` left unchanged. -/
theorem c1_setMaxOptionsForScene_clamps (g : Grid) (sceneIndex : ℤ)
    (options : List ℤ)
    (hvalid : ¬(sceneIndex < 0 ∨ 8 ≤ sceneIndex ∨ options.length ≠ 8))
    (s c : Fin 8) (hs : (s.val : ℤ) = sceneIndex) :
    ((setMaxOptionsForScene g sceneIndex options).1 s c).maxOptions
        = (max 1 (min 8 (options.getD c.val 0))).toNat ∧
    1 ≤ (max 1 (min 8 (options.getD c.val 0))).toNat ∧
    (max 1 (min 8 (options.getD c.val 0))).toNat ≤ 8 ∧
    ((setMaxOptionsForScene g sceneIndex options).1 s c).isRandom = (g s c).isRandom ∧
    ((setMaxOptionsForScene g sceneIndex options).1 s c).randomValue = (g s c).randomValue ∧
    ((setMaxOptionsForScene g sceneIndex options).1 s c).selectedRow
        = (if (max 1 (min 8 (options.getD c.val 0))).toNat ≤ (g s c).selectedRow
           then (max 1 (min 8 (options.getD c.val 0))).toNat - 1
           else (g s c).selectedRow) := by
  have h1 : (1 : ℤ) ≤ max 1 (min 8 (options.getD c.val 0)) := le_max_left _ _
  have h2 : max 1 (min 8 (options.getD c.val 0)) ≤ 8 :=
    max_le (by norm_num) (min_le_left _ _)
  simp only [setMaxOptionsForScene, if_neg hvalid]
  rw [if_pos hs]
  refine ⟨rfl, by omega, by omega, rfl, rfl, rfl⟩

/-- Witness for C1 instantiating the amended clamping statement at spec
Scenario D's call (`setMaxOptionsForScene(1, [0,8,8,8,8,8,8,8])`). -/
theorem c1_witness :
    ¬((1 : ℤ) < 0 ∨ (8 : ℤ) ≤ 1 ∨ ([0, 8, 8, 8, 8, 8, 8, 8] : List ℤ).length ≠ 8) ∧
    (((1 : Fin 8).val : ℤ) = 1) ∧
    ((setMaxOptionsForScene c1Grid 1 [0, 8, 8, 8, 8, 8, 8, 8]).1 1 0).maxOptions
      = (max 1 (min 8 (([0, 8, 8, 8, 8, 8, 8, 8] : List ℤ).getD (0 : Fin 8).val 0))).toNat :=
  ⟨by decide, by decide,
   (c1_setMaxOptionsForScene_clamps c1Grid 1 [0, 8, 8, 8, 8, 8, 8, 8]
     (by decide) 1 0 (by decide)).1⟩

/-- Counterexample to C1 as stated: on spec Scenario D's input the cell ends
with `maxOptions = 1` (not 0), `isRandom` still `true` (not forced to
`false`), `selectedRow = 0`; the claimed inert outcome
(`maxOptions = 0 ∧ isRandom = false`) does not occur. -/
theorem c1_counterexample :
    ((setMaxOptionsForScene c1Grid 1 [0, 8, 8, 8, 8, 8, 8, 8]).1 1 0).maxOptions = 1 ∧
    ((setMaxOptionsForScene c1Grid 1 [0, 8, 8, 8, 8, 8, 8, 8]).1 1 0).isRandom = true ∧
    ((setMaxOptionsForScene c1Grid 1 [0, 8, 8, 8, 8, 8, 8, 8]).1 1 0).selectedRow = 0 ∧
    ¬(((setMaxOptionsForScene c1Grid 1 [0, 8, 8, 8, 8, 8, 8, 8]).1 1 0).maxOptions = 0 ∧
      ((setMaxOptionsForScene c1Grid 1 [0, 8, 8, 8, 8, 8, 8, 8]).1 1 0).isRandom = false) := by
  decide

/-- C9: every reachable grid keeps `maxOptions` in `[1, 8]`: the constructor
starts all 64 cells at 8, `setMaxOptionsForScene` clamps to at least 1,
`resetAllMaxOptions` sets 1, and no other operation writes `maxOptions`, so
no cell ever reaches `maxOptions = 0`. -/
theorem c9_maxOptions_in_range (g : Grid) (h : GridReach g) (s c : Fin 8) :
    1 ≤ (g s c).maxOptions ∧ (g s c).maxOptions ≤ 8 :=
  ⟨(gridReach_bounds g h s c).1, (gridReach_bounds g h s c).2.1⟩

/-- Witness for C9 at the freshly constructed grid. -/
theorem c9_witness :
    1 ≤ (initGrid 0 0).maxOptions ∧ (initGrid 0 0).maxOptions ≤ 8 :=
  c9_maxOptions_in_range initGrid GridReach.init 0 0

/-- Counterexample to C2 as stated: `c2Grid` satisfies the effective-value
invariant (`effectiveValue < maxOptions` wherever `maxOptions > 0`), yet
`setMaxOptionsForScene(0, [2,8,8,8,8,8,8,8])` shrinks column 0's
`maxOptions` to 2 without clamping its `randomValue = 5`, so the invariant
is not preserved. -/
theorem c2_counterexample :
    (∀ s c : Fin 8, 0 < (c2Grid s c).maxOptions →
      getParamValue c2Grid s c < ((c2Grid s c).maxOptions : ℤ)) ∧
    0 < (((setMaxOptionsForScene c2Grid 0 [2, 8, 8, 8, 8, 8, 8, 8]).1 0 0).maxOptions) ∧
    ¬(getParamValue (setMaxOptionsForScene c2Grid 0 [2, 8, 8, 8, 8, 8, 8, 8]).1 0 0
        < ((((setMaxOptionsForScene c2Grid 0 [2, 8, 8, 8, 8, 8, 8, 8]).1 0 0).maxOptions : ℤ))) := by
  decide

/-- C2 (amended): the bound `effectiveValue < maxOptions` holds on every
reachable grid for every cell that is not in random mode (`selectedRow` is
clamped by every operation), and for random cells the bound on `randomValue`
is re-established by the next `refreshRandomCells`; `setMaxOptionsForScene`
itself clamps only `selectedRow`, not `randomValue`. -/
theorem c2_effective_value_invariant :
    (∀ g : Grid, GridReach g → ∀ s c : Fin 8, (g s c).isRandom = false →
      getParamValue g s c < ((g s c).maxOptions : ℤ)) ∧
    (∀ (g : Grid) (t : ℤ) (s c : Fin 8), (g s c).isRandom = true →
      0 < (g s c).maxOptions →
      0 ≤ getParamValue (refreshRandomCells g t) s c ∧
      getParamValue (refreshRandomCells g t) s c
        < (((refreshRandomCells g t) s c).maxOptions : ℤ)) := by
  constructor
  · intro g hg s c hr
    have hb := (gridReach_bounds g hg s c).2.2
    unfold getParamValue
    simp [hr]
    exact_mod_cast hb
  · intro g t s c hr hm
    have hrr : ((refreshRandomCells g t) s c).isRandom = true := by
      rw [refreshRandomCells_isRandom]; exact hr
    have hmr : ((refreshRandomCells g t) s c).maxOptions = (g s c).maxOptions :=
      refreshRandomCells_maxOptions g t s c
    have hv := refreshRandomCells_randomValue_of_random g t s c hr
    have hp := pseudoRandomFromSeed_range ((t : ℝ) + (c.val : ℝ))
    have hf := floor_unit_mul_range _ hp.1 hp.2 (g s c).maxOptions hm
    unfold getParamValue
    simp only [hrr, if_pos]
    rw [hv, hmr]
    exact ⟨hf.1, hf.2⟩

/-- Witness for C2 applying the non-random half at the initial grid and the
refresh half at `c2Grid` (a random cell with `maxOptions = 8`). -/
theorem c2_witness :
    ((initGrid 0 0).isRandom = false ∧
      getParamValue initGrid 0 0 < ((initGrid 0 0).maxOptions : ℤ)) ∧
    ((c2Grid 0 0).isRandom = true ∧ 0 < (c2Grid 0 0).maxOptions ∧
      0 ≤ getParamValue (refreshRandomCells c2Grid 7) 0 0 ∧
      getParamValue (refreshRandomCells c2Grid 7) 0 0
        < (((refreshRandomCells c2Grid 7) 0 0).maxOptions : ℤ)) :=
  ⟨⟨by decide, c2_effective_value_invariant.1 initGrid GridReach.init 0 0 (by decide)⟩,
   ⟨by decide, by decide,
    (c2_effective_value_invariant.2 c2Grid 7 0 0 (by decide) (by decide)).1,
    (c2_effective_value_invariant.2 c2Grid 7 0 0 (by decide) (by decide)).2⟩⟩

/-- Counterexample to C5 as stated: on the initial grid the accent color of
the pad on the effective-value row equals the scene-keyed table entry for
every scene and every column — no scene index keys the accent color by
column. -/
theorem c5_counterexample :
    (∀ s c : Fin 8, gridLedVelocity initGrid s c 0
        = sideActiveColors.getD s.val defaultActiveColor) ∧
    ¬(∃ s c1 c2 : Fin 8,
        gridLedVelocity initGrid s c1 0 ≠ gridLedVelocity initGrid s c2 0) := by
  decide

/-- C5 (amended): in the grid LED encoding, a pad on a row equal to the
cell's effective value (below row 7 and within the active rows) is lit with
the accent color keyed by the current scene via `SIDE_ACTIVE_COLORS` — for
every scene index, with no column-keyed exception. -/
theorem c5_accent_color_scene_keyed (g : Grid) (s c r : Fin 8)
    (h7 : r.val ≠ 7) (hactive : r.val < (g s c).maxOptions)
    (hval : (r.val : ℤ) = getParamValue g s c) :
    gridLedVelocity g s c r = sideActiveColors.getD s.val defaultActiveColor := by
  unfold gridLedVelocity
  rw [if_neg h7, if_pos hactive]
  have hval2 : ((r.val : ℤ)
      = if (g s c).isRandom then (g s c).randomValue else ((g s c).selectedRow : ℤ)) := by
    simpa [getParamValue] using hval
  rw [if_pos hval2]

/-- Witness for C5 at the initial grid, scene 3, column 5, row 0. -/
theorem c5_witness :
    ((0 : Fin 8).val ≠ 7 ∧ (0 : Fin 8).val < (initGrid 3 5).maxOptions ∧
      (((0 : Fin 8).val : ℤ) = getParamValue initGrid 3 5)) ∧
    gridLedVelocity initGrid 3 5 0 = sideActiveColors.getD (3 : Fin 8).val defaultActiveColor :=
  ⟨⟨by decide, by decide, by decide⟩,
   c5_accent_color_scene_keyed initGrid 3 5 0 (by decide) (by decide) (by decide)⟩

/-- C6: the per-tick randomization is deterministic in the tempo index:
`pseudoRandomFromSeed` is a pure function of its seed, running the
random-cell refresh a second time with the same `tempoIndex` (no intervening
mutation) changes nothing, and every random cell's refreshed `randomValue`
equals `floor(pseudoRandomFromSeed (tempoIndex + column) * maxOptions)`. -/
theorem c6_refresh_deterministic :
    (∀ seed : ℝ, pseudoRandomFromSeed seed = pseudoRandomFromSeed seed) ∧
    (∀ (g : Grid) (t : ℤ),
      refreshRandomCells (refreshRandomCells g t) t = refreshRandomCells g t) ∧
    (∀ (g : Grid) (t : ℤ) (s c : Fin 8), (g s c).isRandom = true →
      ((refreshRandomCells g t) s c).randomValue
        = ⌊pseudoRandomFromSeed ((t : ℝ) + (c.val : ℝ)) * ((g s c).maxOptions : ℝ)⌋) := by
  refine ⟨fun _ => rfl, ?_, ?_⟩
  · intro g t
    funext s c
    by_cases h : (g s c).isRandom = true
    · simp [refreshRandomCells, h]
    · simp [refreshRandomCells, h]
  · intro g t s c h
    exact refreshRandomCells_randomValue_of_random g t s c h

/-- Witness for C6's random-cell clause at `c2Grid`'s random cell with
`tempoIndex = 0`. -/
theorem c6_witness :
    (c2Grid 0 0).isRandom = true ∧
    ((refreshRandomCells c2Grid 0) 0 0).randomValue
      = ⌊pseudoRandomFromSeed (((0 : ℤ) : ℝ) + (((0 : Fin 8).val : ℕ) : ℝ))
          * ((c2Grid 0 0).maxOptions : ℝ)⌋ :=
  ⟨by decide, c6_refresh_deterministic.2.2 c2Grid 0 0 0 (by decide)⟩

/-- C4 (amended): on a current-scene cell with `maxOptions = 3` not in random
mode, pressing grid row 7 turns `isRandom` on; a subsequent
`refreshRandomCells(10)` yields `randomValue` in `{0,1,2}`; pressing row 7
again turns `isRandom` off and sets `selectedRow = min (maxOptions - 1) 6
= 2` — inside the selectable range `{0,1,2}` (of size `min(maxOptions,7)`),
not inside `{0,1}`. -/
theorem c4_row7_toggle_behaviour (g : Grid) (s c : Fin 8) (vel : ℕ)
    (hmax : (g s c).maxOptions = 3) (hrand : (g s c).isRandom = false)
    (hvel : vel ≠ 0) :
    ((handleGridPadG g s 144 c.val vel).1 s c).isRandom = true ∧
    (0 ≤ (refreshRandomCells (handleGridPadG g s 144 c.val vel).1 10 s c).randomValue ∧
     (refreshRandomCells (handleGridPadG g s 144 c.val vel).1 10 s c).randomValue < 3) ∧
    ((handleGridPadG (refreshRandomCells (handleGridPadG g s 144 c.val vel).1 10)
        s 144 c.val vel).1 s c).isRandom = false ∧
    ((handleGridPadG (refreshRandomCells (handleGridPadG g s 144 c.val vel).1 10)
        s 144 c.val vel).1 s c).selectedRow = 2 := by
  have h1 := handleGridPadG_row7 g s c vel hvel
  rw [hrand] at h1
  simp only [Bool.false_eq_true, if_false] at h1
  have e_rand : ((handleGridPadG g s 144 c.val vel).1 s c).isRandom = true := by
    rw [h1]
  have e_max : ((handleGridPadG g s 144 c.val vel).1 s c).maxOptions = 3 := by
    rw [h1]; exact hmax
  have e2_rand :
      ((refreshRandomCells (handleGridPadG g s 144 c.val vel).1 10) s c).isRandom = true := by
    rw [refreshRandomCells_isRandom]; exact e_rand
  have e2_max :
      ((refreshRandomCells (handleGridPadG g s 144 c.val vel).1 10) s c).maxOptions = 3 := by
    rw [refreshRandomCells_maxOptions]; exact e_max
  have hv := refreshRandomCells_randomValue_of_random
    (handleGridPadG g s 144 c.val vel).1 10 s c e_rand
  have hp := pseudoRandomFromSeed_range (((10 : ℤ) : ℝ) + (c.val : ℝ))
  have hf := floor_unit_mul_range _ hp.1 hp.2
    ((handleGridPadG g s 144 c.val vel).1 s c).maxOptions (by rw [e_max]; norm_num)
  have h3 := handleGridPadG_row7
    (refreshRandomCells (handleGridPadG g s 144 c.val vel).1 10) s c vel hvel
  rw [e2_rand] at h3
  simp only [if_true] at h3
  refine ⟨e_rand, ⟨?_, ?_⟩, ?_, ?_⟩
  · rw [hv]; exact hf.1
  · rw [hv, e_max]
    have := hf.2
    rw [e_max] at this
    exact_mod_cast this
  · rw [h3]
  · rw [h3]
    simp [e2_max]

/-- Witness for C4 on the concrete Scenario-B grid (`c4Grid`[0][0] has
`maxOptions = 3`), scene 0, column 0, velocity 127. -/
theorem c4_witness :
    ((c4Grid 0 0).maxOptions = 3 ∧ (c4Grid 0 0).isRandom = false ∧ (127 : ℕ) ≠ 0) ∧
    ((handleGridPadG (refreshRandomCells (handleGridPadG c4Grid 0 144 (0 : Fin 8).val 127).1 10)
        0 144 (0 : Fin 8).val 127).1 0 0).selectedRow = 2 :=
  ⟨⟨by decide, by decide, by decide⟩,
   (c4_row7_toggle_behaviour c4Grid 0 0 127 (by decide) (by decide) (by decide)).2.2.2⟩

/-- Counterexample to C4 as stated: in spec Scenario B the second row-7 press
leaves `selectedRow = 2`, which is not in the claimed set `{0,1}`. -/
theorem c4_counterexample :
    ((handleGridPadG (refreshRandomCells (handleGridPadG c4Grid 0 144 0 127).1 10)
        0 144 0 127).1 0 0).selectedRow = 2 ∧
    ¬(((handleGridPadG (refreshRandomCells (handleGridPadG c4Grid 0 144 0 127).1 10)
        0 144 0 127).1 0 0).selectedRow = 0 ∨
      ((handleGridPadG (refreshRandomCells (handleGridPadG c4Grid 0 144 0 127).1 10)
        0 144 0 127).1 0 0).selectedRow = 1) := by
  have hv0 : ((0 : Fin 8)).val = 0 := rfl
  have h1 := handleGridPadG_row7 c4Grid 0 0 127 (by norm_num)
  rw [hv0] at h1
  have hrand : (c4Grid 0 0).isRandom = false := by decide
  have hmax : (c4Grid 0 0).maxOptions = 3 := by decide
  rw [hrand] at h1
  simp only [Bool.false_eq_true, if_false] at h1
  have e_rand : ((handleGridPadG c4Grid 0 144 0 127).1 0 0).isRandom = true := by rw [h1]
  have e_max : ((handleGridPadG c4Grid 0 144 0 127).1 0 0).maxOptions = 3 := by
    rw [h1]; exact hmax
  have e2_rand :
      ((refreshRandomCells (handleGridPadG c4Grid 0 144 0 127).1 10) 0 0).isRandom = true := by
    rw [refreshRandomCells_isRandom]; exact e_rand
  have e2_max :
      ((refreshRandomCells (handleGridPadG c4Grid 0 144 0 127).1 10) 0 0).maxOptions = 3 := by
    rw [refreshRandomCells_maxOptions]; exact e_max
  have h3 := handleGridPadG_row7
    (refreshRandomCells (handleGridPadG c4Grid 0 144 0 127).1 10) 0 0 127 (by norm_num)
  rw [hv0] at h3
  rw [e2_rand] at h3
  simp only [if_true] at h3
  constructor
  · rw [h3]; simp [e2_max]
  · rw [h3]; simp [e2_max]

lemma mgrActivateRandomFader_toggleState (st : MState) (i : Fin 9) (now u : ℚ) :
    (mgrActivateRandomFader st i now u).faderButtonToggleState
      = st.faderButtonToggleState := by
  unfold mgrActivateRandomFader
  split <;> rfl

lemma mgrDeactivateRandomFader_toggleState (st : MState) (i : Fin 9) :
    (mgrDeactivateRandomFader st i).faderButtonToggleState
      = st.faderButtonToggleState := by
  unfold mgrDeactivateRandomFader
  split <;> rfl

lemma updateFaderValue_toggleState (st : MState) (i : Fin 9) (now u : ℚ) :
    (updateFaderValue st i now u).faderButtonToggleState
      = st.faderButtonToggleState := by
  unfold updateFaderValue
  split_ifs <;>
    simp [mgrActivateRandomFader_toggleState, mgrDeactivateRandomFader_toggleState]

/-- C3 (amended): a note-on at the reserved address 122 with positive
intensity is consumed by the shift handler — it toggles `randomSceneMode`
and leaves every fader channel's `toggleState` unchanged; `handleFaderButton`
alone would compute index `22` (not 8) for it; only note-ons in `100..107`
toggle a fader channel's `toggleState` (channels `0..7`), so 8, not 9, fader
channels are toggleable over the wire. -/
theorem c3_master_address_is_shift (st : MState) (vel : ℕ) (hvel : 0 < vel) (now u : ℚ) :
    (handleMIDIMessage st 144 122 vel now u).randomSceneMode = !st.randomSceneMode ∧
    (∀ i : Fin 9, (handleMIDIMessage st 144 122 vel now u).faderButtonToggleState i
      = st.faderButtonToggleState i) ∧
    faderButtonIndex 122 = 22 ∧
    (∀ note : ℕ, 100 ≤ note → note ≤ 107 →
      ∀ hlt : note - 100 < 9,
      (handleMIDIMessage st 144 note vel now u).faderButtonToggleState ⟨note - 100, hlt⟩
        = 1 - st.faderButtonToggleState ⟨note - 100, hlt⟩) := by
  refine ⟨?_, ?_, by decide, ?_⟩
  · simp [handleMIDIMessage, handleShiftToggle, hvel]
  · intro i
    simp [handleMIDIMessage, handleShiftToggle, hvel]
  · intro note h100 h107 hlt
    have hne : note ≠ 122 := by omega
    have hidx : faderButtonIndex note = note - 100 := by
      unfold faderButtonIndex
      rw [if_pos h100]
    have hlt9 : faderButtonIndex note < 9 := by omega
    simp only [handleMIDIMessage, handleShiftToggle, handleFaderButtonM, hne, and_false,
      if_false, Bool.false_eq_true, h100, h107, hvel, hlt9, and_true, true_and, or_false,
      if_true, dite_true, and_self, dif_pos]
    rw [updateFaderValue_toggleState]
    have hfin : (⟨faderButtonIndex note, hlt9⟩ : Fin 9) = ⟨note - 100, hlt⟩ := by
      simp [Fin.mk.injEq, hidx]
    rw [hfin]
    dsimp only
    rw [Function.update_same]

/-- Witness for C3 on the freshly constructed manager state. -/
theorem c3_witness :
    (0 : ℕ) < 127 ∧
    (handleMIDIMessage initMState 144 122 127 0 0).randomSceneMode
      = !initMState.randomSceneMode :=
  ⟨by norm_num, (c3_master_address_is_shift initMState 127 (by norm_num) 0 0).1⟩

/-- Counterexample to C3 as stated: a note-on at address 122 with intensity
127 does not toggle fader channel 8's `toggleState` (it stays 0); it toggles
`randomSceneMode` instead. -/
theorem c3_counterexample :
    (handleMIDIMessage initMState 144 122 127 0 0).randomSceneMode = true ∧
    (handleMIDIMessage initMState 144 122 127 0 0).faderButtonToggleState 8 = 0 ∧
    ¬((handleMIDIMessage initMState 144 122 127 0 0).faderButtonToggleState 8
        = 1 - initMState.faderButtonToggleState 8) := by
  refine ⟨?_, ?_, ?_⟩
  · simp [handleMIDIMessage, handleShiftToggle, initMState]
  · simp [handleMIDIMessage, handleShiftToggle, initMState]
  · simp [handleMIDIMessage, handleShiftToggle, initMState]

lemma rfcProcessChannel_isActive (low high : NumericRange) (now : ℚ) (st : RFState)
    (u1 u2 : ℚ) :
    (rfcProcessChannel low high now st u1 u2).isActive = st.isActive := by
  unfold rfcProcessChannel
  dsimp only
  split_ifs <;> rfl

lemma rfcProcessChannel_cv (low high : NumericRange) (now : ℚ) (st : RFState) (u1 u2 : ℚ)
    (h : st.currentValue = 0 ∨ st.currentValue = 1) :
    (rfcProcessChannel low high now st u1 u2).currentValue = 0 ∨
    (rfcProcessChannel low high now st u1 u2).currentValue = 1 := by
  unfold rfcProcessChannel
  dsimp only
  split_ifs <;> simp_all

lemma rfcActivate_cv {n : ℕ} (low : NumericRange) (s : RFStates n) (i0 : Fin n) (now u : ℚ)
    (ih : ∀ i, (s i).currentValue = 0 ∨ (s i).currentValue = 1) :
    ∀ i, ((rfcActivate low s i0 now u) i).currentValue = 0 ∨
         ((rfcActivate low s i0 now u) i).currentValue = 1 := by
  intro i
  unfold rfcActivate
  split
  · exact ih i
  · rcases eq_or_ne i i0 with he | he
    · subst he
      rw [Function.update_same]
      left; rfl
    · rw [Function.update_noteq he]
      exact ih i

lemma rfcDeactivate_cv {n : ℕ} (s : RFStates n) (i0 : Fin n)
    (ih : ∀ i, (s i).currentValue = 0 ∨ (s i).currentValue = 1) :
    ∀ i, ((rfcDeactivate s i0) i).currentValue = 0 ∨
         ((rfcDeactivate s i0) i).currentValue = 1 := by
  intro i
  unfold rfcDeactivate
  split
  · exact ih i
  · rcases eq_or_ne i i0 with he | he
    · subst he
      rw [Function.update_same]
      left; rfl
    · rw [Function.update_noteq he]
      exact ih i

lemma rfcReach_cv {n : ℕ} (low high : NumericRange) (s : RFStates n)
    (h : RFCReach low high s) :
    ∀ i, (s i).currentValue = 0 ∨ (s i).currentValue = 1 := by
  induction h with
  | init =>
      intro i
      left; rfl
  | act s0 i0 now u hr ih =>
      exact rfcActivate_cv low s0 i0 now u ih
  | deact s0 i0 hr ih =>
      exact rfcDeactivate_cv s0 i0 ih
  | recompute s0 index mode toggleState prevValue now u hr ih =>
      intro i
      unfold rfcRecomputeValue
      split
      · exact ih i
      · next hrange =>
        cases mode with
        | mute =>
            exact rfcDeactivate_cv s0 ⟨index.toNat, by omega⟩ ih i
        | random =>
            dsimp only
            by_cases ht : toggleState ≠ 0
            · rw [if_pos ht]
              exact rfcActivate_cv low s0 ⟨index.toNat, by omega⟩ now u ih i
            · rw [if_neg ht]
              exact rfcDeactivate_cv s0 ⟨index.toNat, by omega⟩ ih i
  | proc s0 now mode outputs u1 u2 hr ih =>
      intro i
      unfold rfcProcess
      split
      · exact ih i
      · dsimp only
        split
        · exact rfcProcessChannel_cv low high now (s0 i) (u1 i) (u2 i) (ih i)
        · exact ih i

lemma rfcActivate_inact {n : ℕ} (low : NumericRange) (s : RFStates n) (i0 : Fin n)
    (now u : ℚ)
    (ih : ∀ i, (s i).isActive = false → (s i).currentValue = 0 ∧ (s i).nextSwitchTime = 0) :
    ∀ i, ((rfcActivate low s i0 now u) i).isActive = false →
      ((rfcActivate low s i0 now u) i).currentValue = 0 ∧
      ((rfcActivate low s i0 now u) i).nextSwitchTime = 0 := by
  intro i
  unfold rfcActivate
  split
  · exact ih i
  · rcases eq_or_ne i i0 with he | he
    · subst he
      rw [Function.update_same]
      intro hfalse
      exact absurd hfalse (by simp)
    · rw [Function.update_noteq he]
      exact ih i

lemma rfcDeactivate_inact {n : ℕ} (s : RFStates n) (i0 : Fin n)
    (ih : ∀ i, (s i).isActive = false → (s i).currentValue = 0 ∧ (s i).nextSwitchTime = 0) :
    ∀ i, ((rfcDeactivate s i0) i).isActive = false →
      ((rfcDeactivate s i0) i).currentValue = 0 ∧
      ((rfcDeactivate s i0) i).nextSwitchTime = 0 := by
  intro i
  unfold rfcDeactivate
  split
  · exact ih i
  · rcases eq_or_ne i i0 with he | he
    · subst he
      rw [Function.update_same]
      intro _
      exact ⟨rfl, rfl⟩
    · rw [Function.update_noteq he]
      exact ih i

lemma rfcReach_inactive {n : ℕ} (low high : NumericRange) (s : RFStates n)
    (h : RFCReach low high s) :
    ∀ i, (s i).isActive = false → (s i).currentValue = 0 ∧ (s i).nextSwitchTime = 0 := by
  induction h with
  | init =>
      intro i _
      exact ⟨rfl, rfl⟩
  | act s0 i0 now u hr ih =>
      exact rfcActivate_inact low s0 i0 now u ih
  | deact s0 i0 hr ih =>
      exact rfcDeactivate_inact s0 i0 ih
  | recompute s0 index mode toggleState prevValue now u hr ih =>
      intro i
      unfold rfcRecomputeValue
      split
      · exact ih i
      · next hrange =>
        cases mode with
        | mute =>
            exact rfcDeactivate_inact s0 ⟨index.toNat, by omega⟩ ih i
        | random =>
            dsimp only
            by_cases ht : toggleState ≠ 0
            · rw [if_pos ht]
              exact rfcActivate_inact low s0 ⟨index.toNat, by omega⟩ now u ih i
            · rw [if_neg ht]
              exact rfcDeactivate_inact s0 ⟨index.toNat, by omega⟩ ih i
  | proc s0 now mode outputs u1 u2 hr ih =>
      intro i
      unfold rfcProcess
      split
      · exact ih i
      · dsimp only
        split
        · next hact =>
            rw [rfcProcessChannel_isActive]
            intro hfalse
            rw [hact] at hfalse
            exact absurd hfalse (by simp)
        · exact ih i

/-- C8: on every reachable channel-state array, `process` writes only 0 or 1
into the entries of active channels, leaves the entries of inactive channels
untouched, and when the mode is not `random` it writes nothing and changes
no channel state. -/
theorem c8_process_output_binary {n : ℕ} (low high : NumericRange) (s : RFStates n)
    (h : RFCReach low high s) (now : ℚ) (outputs u1 u2 : Fin n → ℚ) :
    (∀ i, (s i).isActive = true →
      ((rfcProcess low high s now FaderButtonMode.random outputs u1 u2).2 i = 0 ∨
       (rfcProcess low high s now FaderButtonMode.random outputs u1 u2).2 i = 1)) ∧
    (∀ i, (s i).isActive = false →
      (rfcProcess low high s now FaderButtonMode.random outputs u1 u2).2 i = outputs i) ∧
    (∀ mode, mode ≠ FaderButtonMode.random →
      rfcProcess low high s now mode outputs u1 u2 = (s, outputs)) := by
  refine ⟨?_, ?_, ?_⟩
  · intro i hact
    unfold rfcProcess
    rw [if_neg (by simp)]
    dsimp only
    rw [if_pos hact]
    exact rfcProcessChannel_cv low high now (s i) (u1 i) (u2 i)
      (rfcReach_cv low high s h i)
  · intro i hact
    unfold rfcProcess
    rw [if_neg (by simp)]
    dsimp only
    rw [if_neg (by rw [hact]; simp)]
  · intro mode hm
    unfold rfcProcess
    rw [if_pos hm]

/-- Witness for C8 at the freshly constructed 9-channel controller: a
non-`random` mode leaves states and outputs untouched. -/
theorem c8_witness :
    FaderButtonMode.mute ≠ FaderButtonMode.random ∧
    rfcProcess mgrLowRange mgrHighRange (rfcInit 9) 0 FaderButtonMode.mute
        (fun _ => 5) (fun _ => 0) (fun _ => 0)
      = (rfcInit 9, fun _ => 5) :=
  ⟨by decide,
   (c8_process_output_binary mgrLowRange mgrHighRange (rfcInit 9) RFCReach.init 0
      (fun _ => 5) (fun _ => 0) (fun _ => 0)).2.2 FaderButtonMode.mute (by decide)⟩

/-- C10: on every reachable channel-state array, an inactive channel has
`currentValue = 0` and `nextSwitchTime = 0` — no stale scheduled switch time
survives deactivation; this holds at construction and is preserved by
`activate`, `deactivate`, `recomputeValue` and `process`. -/
theorem c10_inactive_channel_reset {n : ℕ} (low high : NumericRange) (s : RFStates n)
    (h : RFCReach low high s) (i : Fin n) (hi : (s i).isActive = false) :
    (s i).currentValue = 0 ∧ (s i).nextSwitchTime = 0 :=
  rfcReach_inactive low high s h i hi

/-- Witness for C10 at the freshly constructed 9-channel controller. -/
theorem c10_witness :
    ((rfcInit 9) 0).isActive = false ∧
    ((rfcInit 9) 0).currentValue = 0 ∧ ((rfcInit 9) 0).nextSwitchTime = 0 :=
  ⟨rfl,
   c10_inactive_channel_reset mgrLowRange mgrHighRange (rfcInit 9) RFCReach.init 0 rfl⟩
